import Mathlib

/-!
Verification of the FRA claim-evaluation prototype.

Shallow embedding of the core pipeline of the repository:
- `fra_prototype/ai_models/groundwater_offline.py` (k-nearest wells, stats),
- `fra_prototype/backend/scheme_engine.py` (rule engine `recommend`),
- `fra_prototype/asset_evaluator.py` (`recommend_schemes`, `evaluate_assets`),
- `fra_prototype/ai_models/asset_mapping.py` (water mask thresholding and
  morphological cleanup `clean_mask`).

Python floats are modelled as rationals (`Rat`); `round(x, n)` is modelled by
half-to-even rounding on rationals.  Geometry (shapely/geopandas areas,
buffering, intersections) and the haversine trigonometry are external numeric
libraries; their outputs enter the model as parameters (per-asset areas, a
distance function), and everything downstream of those numbers is embedded
from the source.
-/

/-! ## A stable insertion sort driven by a Boolean strict comparator

Models Python's stable `list.sort(key=...)` / pandas `sort_values`.
An element is inserted before the first element that does not strictly
precede it, so equal elements keep their original relative order, as in
CPython's stable sort. -/

def insertLt {α : Type} (lt : α → α → Bool) (a : α) : List α → List α
  | [] => [a]
  | b :: l => if lt b a then b :: insertLt lt a l else a :: b :: l

def sortLt {α : Type} (lt : α → α → Bool) : List α → List α
  | [] => []
  | a :: l => insertLt lt a (sortLt lt l)

/-- Strict lexicographic comparator from a rational major key and a natural
minor key; used to model Python sort keys of the form `(-score, rank)`. -/
def lexLt {α : Type} (k1 : α → ℚ) (k2 : α → ℕ) (x y : α) : Bool :=
  decide (k1 x < k1 y) || (decide (k1 x = k1 y) && decide (k2 x < k2 y))

/-- Sort ascending by a rational key (ties keep list order), the Boolean
comparator form of `sorted(l, key=k)`. -/
def sortByKey {α : Type} (k : α → ℚ) : List α → List α :=
  sortLt (lexLt k (fun _ => 0))

/-! ## Python `round` on rationals: round-half-to-even

Models `round(x, ndigits)` from `asset_evaluator.py` / `groundwater_offline.py`
(ignoring binary floating-point representation error). -/

/-- Round a rational to the nearest integer, ties to the even integer
(CPython banker's rounding). -/
def pyRoundInt (q : ℚ) : ℤ :=
  if q - ⌊q⌋ < 1/2 then ⌊q⌋
  else if (1/2 : ℚ) < q - ⌊q⌋ then ⌊q⌋ + 1
  else if ⌊q⌋ % 2 = 0 then ⌊q⌋ else ⌊q⌋ + 1

/-- `round(q, d)` for `d` decimal digits. -/
def pyRound (q : ℚ) (d : ℕ) : ℚ :=
  (pyRoundInt (q * 10 ^ d) : ℚ) / 10 ^ d

/-! ## Coordinate parsing (`asset_evaluator.py`, lines 172-184)

The coordinate text is split on commas, each part stripped, and the parts
converted with Python's `float`.  `float` is modelled on the grammar
`[sign] (digits [. digits] | . digits | digits .) [(e|E) [sign] digits]`;
Python additionally accepts `inf`/`nan` and underscores between digits,
which are out of the rational model and rejected here. -/

def digitToNat (c : Char) : ℕ := c.toNat - 48

/-- Consume a maximal run of decimal digits from the front. -/
def takeDigits : List Char → List ℕ × List Char
  | [] => ([], [])
  | c :: r =>
      if c.isDigit then
        let p := takeDigits r
        (digitToNat c :: p.1, p.2)
      else ([], c :: r)

def natOfDigits (ds : List ℕ) : ℕ := ds.foldl (fun a d => 10 * a + d) 0

/-- Parse an optional exponent suffix and apply it to the mantissa; any
trailing garbage makes the whole parse fail, as `float` raises. -/
def parseExpPart (m : ℚ) : List Char → Option ℚ
  | [] => some m
  | c :: r =>
      if c = 'e' ∨ c = 'E' then
        let sr : ℤ × List Char :=
          match r with
          | '+' :: t => (1, t)
          | '-' :: t => (-1, t)
          | _ => (1, r)
        let p := takeDigits sr.2
        if p.1 = [] ∨ p.2 ≠ [] then none
        else some (m * (10 : ℚ) ^ (sr.1 * (natOfDigits p.1 : ℤ)))
      else none

/-- Python `float(text)` on an already-stripped character list. -/
def pyFloat? (l : List Char) : Option ℚ :=
  let sl : Bool × List Char :=
    match l with
    | '+' :: t => (false, t)
    | '-' :: t => (true, t)
    | _ => (false, l)
  let ipp := takeDigits sl.2
  let core : Option (ℚ × List Char) :=
    match ipp.2 with
    | '.' :: r =>
        let fpp := takeDigits r
        if ipp.1 = [] ∧ fpp.1 = [] then none
        else some ((natOfDigits ipp.1 : ℚ) +
          (natOfDigits fpp.1 : ℚ) / (10 : ℚ) ^ fpp.1.length, fpp.2)
    | _ => if ipp.1 = [] then none else some ((natOfDigits ipp.1 : ℚ), ipp.2)
  match core with
  | none => none
  | some (m, rest) =>
      (parseExpPart m rest).map (fun v => if sl.1 then -v else v)

/-- `text.split(",")` on the character list. -/
def splitComma : List Char → List (List Char)
  | [] => [[]]
  | c :: r =>
      let rest := splitComma r
      if c = ',' then [] :: rest
      else
        match rest with
        | h :: t => (c :: h) :: t
        | [] => [[c]]

/-- `part.strip()` (whitespace only). -/
def stripChars (l : List Char) : List Char :=
  ((l.dropWhile Char.isWhitespace).reverse.dropWhile Char.isWhitespace).reverse

/-- The coordinate-parsing logic of `evaluate_assets`
(`asset_evaluator.py` 173-184), returning `(lat, lon)`.

The first attempt requires exactly two comma-separated parts and reads them
as `lat, lon`.  On any failure Python re-runs `float` on `parts[0]` /
`parts[1]` reading them as `lon, lat` (so a text with more than two parts
whose first two parts are numeric is accepted, reversed); if that also
fails — including the `IndexError` when fewer than two parts exist — the
claim's coordinates are invalid (`None`). -/
def parseCoords (s : String) : Option (ℚ × ℚ) :=
  let parts := (splitComma s.data).map stripChars
  let primary : Option (ℚ × ℚ) :=
    match parts with
    | [p0, p1] =>
        match pyFloat? p0, pyFloat? p1 with
        | some la, some lo => some (la, lo)
        | _, _ => none
    | _ => none
  match primary with
  | some r => some r
  | none =>
      match parts with
      | p0 :: p1 :: _ =>
          match pyFloat? p0, pyFloat? p1 with
          | some lo, some la => some (la, lo)
          | _, _ => none
      | _ => none

/-! ## Groundwater lookup (`ai_models/groundwater_offline.py`)

Wells are the rows of the cleaned CSV after `_load_wells` (rows with
non-numeric Lat/Lon already dropped; a NaN `WaterLevel_m_bgl` becomes
`none`).  The haversine great-circle distance is floating-point
trigonometry; it enters the model as an abstract distance function
`d qlat qlon wlat wlon`, and everything from the distance values on
(filter, sort, truncate, aggregate) is embedded from the source. -/

structure Well where
  stationCode : String
  lat : ℚ
  lon : ℚ
  depth : Option ℚ
deriving DecidableEq, Repr

/-- One dict of the list returned by `groundwater_k_nearest`. -/
structure WellEntry where
  stationCode : String
  depth_m_bgl : Option ℚ
  distance_km : ℚ
  well_lat : ℚ
  well_lon : ℚ
deriving DecidableEq, Repr

/-- `groundwater_k_nearest(lat, lon, k, max_km)` over a well table
(`groundwater_offline.py` 47-79): distances to every well, filter to
`dist <= max_km` when a radius is given, empty-guard, sort ascending by
distance, keep `max(1, k)` rows, round the reported distance to 3 digits. -/
def groundwater_k_nearest (d : ℚ → ℚ → ℚ → ℚ → ℚ) (lat lon : ℚ) (k : ℕ)
    (max_km : Option ℚ) (wells : List Well) : List WellEntry :=
  let withDist : List (Well × ℚ) := wells.map (fun w => (w, d lat lon w.lat w.lon))
  let filtered : List (Well × ℚ) :=
    match max_km with
    | some m => withDist.filter (fun p : Well × ℚ => decide (p.2 ≤ m))
    | none => withDist
  if filtered.isEmpty then []
  else
    ((sortByKey (fun p : Well × ℚ => p.2) filtered).take (max 1 k)).map
      (fun p : Well × ℚ =>
        { stationCode := p.1.stationCode
          depth_m_bgl := p.1.depth
          distance_km := pyRound p.2 3
          well_lat := p.1.lat
          well_lon := p.1.lon })

/-- The dict built by `groundwater_stats` (`groundwater_offline.py` 100-105). -/
structure GWStats where
  avg_depth_m_bgl : Option ℚ
  min_distance_km : Option ℚ
  k_used : ℕ
  samples : List WellEntry
deriving DecidableEq, Repr

/-- `groundwater_stats` (`groundwater_offline.py` 82-105): `None` when no
well is within the radius, otherwise the average of the known depths
(rounded to 2 digits), the minimum reported distance, the number of wells
used and the sample list. -/
def groundwater_stats (d : ℚ → ℚ → ℚ → ℚ → ℚ) (lat lon : ℚ) (k : ℕ)
    (max_km : Option ℚ) (wells : List Well) : Option GWStats :=
  let ws := groundwater_k_nearest d lat lon k max_km wells
  if ws.isEmpty then none
  else
    let depths := ws.filterMap (fun w => w.depth_m_bgl)
    some
      { avg_depth_m_bgl :=
          if depths.isEmpty then none
          else some (pyRound (depths.sum / depths.length) 2)
        min_distance_km := (ws.map (fun w => w.distance_km)).min?
        k_used := ws.length
        samples := ws }

/-- `gw_info.get(key)` as performed by `evaluate_assets` on the stats dict:
the dict built by `groundwater_stats` holds the numeric keys
`avg_depth_m_bgl` and `min_distance_km`; `.get` on any other key
(in particular the `mean_distance_km` read at `asset_evaluator.py` 270)
returns `None`. -/
def statsGet (st : GWStats) (key : String) : Option ℚ :=
  if key = "avg_depth_m_bgl" then st.avg_depth_m_bgl
  else if key = "min_distance_km" then st.min_distance_km
  else none

/-! ## Rule engine (`backend/scheme_engine.py`) -/

/-- The metric fields of an evaluator row as read by `recommend`
(`scheme_engine.py` 36-41); a missing/None field reads as 0 via
`row.get(..., 0) or 0`, while groundwater depth and well distance keep
their None-ness. -/
structure EngineRow where
  vegetation_area : Option ℚ
  water_area : Option ℚ
  barren_area : Option ℚ
  urban_area : Option ℚ
  groundwater_depth : Option ℚ
  gw_distance_to_well_km : Option ℚ
deriving DecidableEq, Repr

/-- `score_band(x, lo, hi, invert)` (`scheme_engine.py` 19-27). -/
def score_band (x lo hi : ℚ) (invert : Bool) : ℚ :=
  if hi = lo then 0
  else
    let t := max 0 (min 1 ((x - lo) / (hi - lo)))
    if invert then 1 - t else t

/-- Scheme name of rule 1 of `recommend` (`scheme_engine.py` 70). -/
def waterInfraScheme : String :=
  "Rural Water Infra (e.g., Jal Jeevan Mission works/MGNREGA water conservation)"

/-- `gw is not None and gw <= 15` (`scheme_engine.py` 43-44,
`asset_evaluator.py` 55-57, 90). -/
def gwKnownLe15 (gw : Option ℚ) : Bool :=
  match gw with
  | some g => decide (g ≤ 15)
  | none => false

/-- `gw is not None and gw > 15` (`scheme_engine.py` 60, 64,
`asset_evaluator.py` 59). -/
def gwKnownGt15 (gw : Option ℚ) : Bool :=
  match gw with
  | some g => decide (15 < g)
  | none => false

/-- `gw is None or gw > 15` (`asset_evaluator.py` 78, 84). -/
def gwNoneOrGt15 (gw : Option ℚ) : Bool :=
  match gw with
  | none => true
  | some g => decide (15 < g)

/-- The base needs score of `recommend(row)` (`scheme_engine.py` 29-112)
mapped to 0..100 (`scheme_engine.py` 46-54).  Reason strings are not
modelled; each recommendation is the pair (scheme name, priority). -/
def engineOverallPriority (row : EngineRow) : ℚ :=
  let veg := row.vegetation_area.getD 0
  let water := row.water_area.getD 0
  let barren := row.barren_area.getD 0
  let gw_known := row.groundwater_depth.isSome
  let gw_ok := gwKnownLe15 row.groundwater_depth
  let water_need := 1 - score_band water 0 (1/2) false
  let gw_need : ℚ := if gw_ok then 0 else if gw_known then 7/10 else 1/2
  let veg_need := 1 - score_band veg 0 5 false
  let barren_need := score_band barren 0 5 false
  let needs_score := (35/100) * water_need + (35/100) * gw_need
    + (20/100) * veg_need + (10/100) * barren_need
  pyRound (needs_score * 100) 1

/-- Rule 5 of `recommend`, the far-groundwater-station data-gap note
(`scheme_engine.py` 102-108); `if gw_dist and gw_dist > 100` is falsy for
both `None` and `0.0`. -/
def dataGapRec (gwd : Option ℚ) : List (String × ℚ) :=
  match gwd with
  | some gd => if gd ≠ 0 ∧ 100 < gd then [("Data gap note", 50)] else []
  | none => []

/-- The five conditional rules of `recommend` in source order, before the
sort (`scheme_engine.py` 56-108). -/
def engineRecsUnsorted (row : EngineRow) : List (String × ℚ) :=
  let veg := row.vegetation_area.getD 0
  let water := row.water_area.getD 0
  let barren := row.barren_area.getD 0
  let gw_ok := gwKnownLe15 row.groundwater_depth
  let gw_deep := gwKnownGt15 row.groundwater_depth
  let overall := engineOverallPriority row
  let r1 : List (String × ℚ) :=
    if water < 1/20 ∨ gw_deep = true then
      [(waterInfraScheme, min 95 (overall + 10))]
    else []
  let r2 : List (String × ℚ) :=
    if 1/5 < barren then
      [("MGNREGA Watershed/Soil & Moisture Conservation", min 90 (overall + 5))]
    else []
  let r3 : List (String × ℚ) :=
    if 2 ≤ veg then
      [("Agroforestry / Allied livelihood support (NHB/Horticulture/State Mission)",
        min 85 overall)]
    else []
  let r4 : List (String × ℚ) :=
    if water < 1/20 ∨ gw_ok = false then
      [("District Convergence (multi-dept) – water/irrigation priority",
        min 88 (overall + 5))]
    else []
  r1 ++ r2 ++ r3 ++ r4 ++ dataGapRec row.gw_distance_to_well_km

def engineRecommend (row : EngineRow) : List (String × ℚ) × ℚ :=
  (sortByKey (fun p : String × ℚ => -p.2) (engineRecsUnsorted row),
   engineOverallPriority row)

/-! ## Priority recommender (`asset_evaluator.py`, `recommend_schemes`) -/

/-- The metric fields of a result row as read by `recommend_schemes`
(`asset_evaluator.py` 28-39): None areas normalize to 0, the groundwater
depth keeps its None-ness. -/
structure SchemeMetrics where
  vegetation_area : Option ℚ
  water_area : Option ℚ
  urban_area : Option ℚ
  barren_area : Option ℚ
  groundwater_depth : Option ℚ
deriving DecidableEq, Repr

/-- `poor_land = (veg < 2.0) and (wat == 0.0) and (gw is None or gw > 15)`
(`asset_evaluator.py` 78). -/
def poorLand (veg wat : ℚ) (gw : Option ℚ) : Bool :=
  decide (veg < 2) && decide (wat = 0) && gwNoneOrGt15 gw

/-- The `Skill India` safety-net score (`asset_evaluator.py` 82, 86). -/
def skillIndiaScore (m : SchemeMetrics) : ℚ :=
  if poorLand (m.vegetation_area.getD 0) (m.water_area.getD 0)
      m.groundwater_depth then 1 else 2/5

/-- The scores dict of `recommend_schemes` (`asset_evaluator.py` 42-90) in
insertion order (Python dicts preserve insertion order; both branches of
the `poor_land` conditional insert the same three keys in the same
positions). -/
def schemeScores (m : SchemeMetrics) : List (String × ℚ) :=
  let veg := m.vegetation_area.getD 0
  let wat := m.water_area.getD 0
  let urb := m.urban_area.getD 0
  let bar := m.barren_area.getD 0
  let gw := m.groundwater_depth
  let gwLe15 : Bool := gwKnownLe15 gw
  let gwGt15 : Bool := gwKnownGt15 gw
  let poor_land : Bool := poorLand veg wat gw
  let pmfby : ℚ := if 1 ≤ veg then 3/2 else if 1/5 ≤ veg then 1/2 else 0
  [ ("PM-KISAN", if 2 ≤ veg then 2 else if 1/2 ≤ veg then 1 else 0),
    ("PMFBY", pmfby),
    ("Soil Health Card", if 1/2 ≤ veg then 1 else 0),
    ("NMSA", if 1 ≤ veg then 6/5 else if 0 < veg then 2/5 else 0),
    ("Jal Jeevan Mission", if 0 < wat then 2 else if gwLe15 then 1 else 1/5),
    ("PMKSY", if 0 < wat ∨ gwLe15 ∨ 2 ≤ veg then 3/2 else 1/5),
    ("MGNREGA Water Works", if 0 < wat ∨ 1/10 < bar ∨ gwGt15 then 7/5 else 3/10),
    ("PMAY-G", if 1 ≤ urb then 2 else if 1/5 ≤ urb then 1 else 0),
    ("Saubhagya (electrification)", if 0 < urb then 1 else 3/10),
    ("PM Ujjwala", if 0 < urb then 4/5 else 2/5),
    ("PMGSY (rural roads)", if 0 < urb ∨ 1 < veg then 1 else 1/5),
    ("MGNREGA Land Dev", if 1/5 < bar then 3/2 else if 1/20 < bar then 1/2 else 0),
    ("RKVY", if 1/10 < bar ∨ 1/2 < veg then 1 else 0),
    ("ITDP/TSP", if veg < 2 ∧ (0 < urb ∨ 0 < bar) then 1 else 2/5),
    ("MFP Scheme (TRIFED)", if 1 ≤ veg then 9/5 else 1/2),
    ("Van Dhan Yojana", if 1 ≤ veg then 3/2 else 2/5),
    ("Green India Mission", if 1 ≤ veg then 6/5 else 1/5),
    ("Jal Shakti (check dams/borewells)",
      if poor_land then 9/5 else if wat = 0 ∧ gwNoneOrGt15 gw then 3/5 else 1/5),
    ("NRLM (SHG / livelihoods)",
      if poor_land then 8/5 else if veg < 2 then 3/5 else 1/5),
    ("Skill India", if poor_land then 1 else 2/5),
    ("PM Fasal Bima Yojana (detailed)", pmfby),
    ("Minor Irrigation / Micro-irrigation",
      if 1 ≤ veg ∧ (0 < wat ∨ gwLe15) then 1 else 3/10) ]

/-- The fixed tie-break list `priority_order` (`asset_evaluator.py` 99-103). -/
def priority_order : List String :=
  [ "PM-KISAN", "Jal Jeevan Mission", "PMAY-G", "PMFBY",
    "MGNREGA Water Works", "MFP Scheme (TRIFED)", "NRLM (SHG / livelihoods)",
    "MGNREGA Land Dev", "PMKSY", "Van Dhan Yojana", "NMSA", "Soil Health Card" ]

/-- `priority_order.index(name)` with the `ValueError` fallback
`len(priority_order) + 10` (`asset_evaluator.py` 107-110). -/
def priorityRank (name : String) : ℕ :=
  let i := priority_order.findIdx (fun s => s == name)
  if i < priority_order.length then i else priority_order.length + 10

/-- The alias map collapsing the detailed PMFBY entry
(`asset_evaluator.py` 118-120). -/
def aliasCanonical (name : String) : String :=
  if name = "PM Fasal Bima Yojana (detailed)" then "PMFBY" else name

/-- The selection loop of `recommend_schemes` (`asset_evaluator.py`
116-129): walk the sorted scored list, skip alias duplicates, stop once
`max_schemes` names are chosen.  `seen` and `cnt` mirror `seen_canonical`
and `len(chosen)`. -/
def chooseTop (maxSchemes : ℕ) : List (String × ℚ) → List String → ℕ → List String
  | [], _, _ => []
  | (name, _) :: rest, seen, cnt =>
      let c := aliasCanonical name
      if c ∈ seen then chooseTop maxSchemes rest seen cnt
      else if maxSchemes ≤ cnt + 1 then [c]
      else c :: chooseTop maxSchemes rest (c :: seen) (cnt + 1)

/-- The scored list of `recommend_schemes` after dropping zero scores and
sorting by `(-score, priority rank)` with Python's stable sort
(`asset_evaluator.py` 92-113). -/
def scoredSorted (m : SchemeMetrics) : List (String × ℚ) :=
  sortLt (lexLt (fun p : String × ℚ => -p.2) (fun p : String × ℚ => priorityRank p.1))
    ((schemeScores m).filter (fun p : String × ℚ => decide (0 < p.2)))

/-- `recommend_schemes(row, max_schemes)` (`asset_evaluator.py` 15-131). -/
def recommend_schemes (m : SchemeMetrics) (maxSchemes : ℕ) : List String :=
  let scored := (schemeScores m).filter (fun p : String × ℚ => decide (0 < p.2))
  if scored.isEmpty then []
  else chooseTop maxSchemes (scoredSorted m) [] 0

/-! ## Claim evaluation (`asset_evaluator.py`, `evaluate_assets`)

The geometric part (buffering the claim point, reprojecting, intersecting
each detected polygon with the buffer and taking planar areas) is done by
geopandas/shapely; it enters the model as the list of detected assets,
each carrying its `asset_type` and its post-intersection area in hectares
(a planar polygon area, hence nonnegative). -/

structure Asset where
  asset_type : String
  area_ha : ℚ
deriving DecidableEq, Repr

/-- `area_sum(asset_type)` (`asset_evaluator.py` 252-256). -/
def area_sum (detected : List Asset) (t : String) : ℚ :=
  ((detected.filter (fun a => a.asset_type == t)).map (fun a => a.area_ha)).sum

/-- `vegetation_area = farm_area_ha + forest_area_ha`
(`asset_evaluator.py` 258-264). -/
def vegetationArea (detected : List Asset) : ℚ :=
  area_sum detected "cropland" + area_sum detected "forest"

structure ClaimRow where
  patta_holder : String
  village : String
  coordinates : String
  claim_status : String
deriving DecidableEq, Repr

/-- A reason tag of the evaluation verdict string
(`asset_evaluator.py` 199, 288-300). -/
inductive Reason where
  | invalidCoordinates
  | vegDeficit
  | noSurfaceWater
  | gwUnknown
  | gwTooDeep
  | gwSampledNote (kUsed : ℕ)
deriving DecidableEq, Repr

/-- The verdict of the `evaluation` string: `Sufficient (...)` or
`Insufficient (reason; ...)`. -/
inductive Verdict where
  | sufficient
  | insufficient (reasons : List Reason)
deriving DecidableEq, Repr

/-- One row of the result DataFrame (`asset_evaluator.py` 187-201 and
303-319); area and groundwater fields are `None` on the invalid path. -/
structure ResultRow where
  patta_holder : String
  village : String
  coordinates : String
  claim_status : String
  vegetation_area : Option ℚ
  water_area : Option ℚ
  urban_area : Option ℚ
  barren_area : Option ℚ
  groundwater_depth : Option ℚ
  gw_distance_to_well_km : Option ℚ
  gw_k_used : ℕ
  evaluation : Verdict
  recommended_schemes : List String
deriving DecidableEq, Repr

/-- The invalid-coordinates row (`asset_evaluator.py` 186-202). -/
def invalidResultRow (claim : ClaimRow) : ResultRow :=
  { patta_holder := claim.patta_holder
    village := claim.village
    coordinates := claim.coordinates
    claim_status := claim.claim_status
    vegetation_area := none
    water_area := none
    urban_area := none
    barren_area := none
    groundwater_depth := none
    gw_distance_to_well_km := none
    gw_k_used := 0
    evaluation := Verdict.insufficient [Reason.invalidCoordinates]
    recommended_schemes := [] }

/-- Configuration of `evaluate_assets` (its keyword arguments; defaults
15.0, 3, 150.0). -/
structure EvalConfig where
  groundwater_max_depth_m : ℚ := 15
  gw_k : ℕ := 3
  gw_max_km : ℚ := 150
deriving DecidableEq, Repr

/-- The stats dict of the claim's groundwater lookup
(`asset_evaluator.py` 267). -/
def claimGwStats (cfg : EvalConfig) (wells : List Well)
    (d : ℚ → ℚ → ℚ → ℚ → ℚ) (lat lon : ℚ) : Option GWStats :=
  groundwater_stats d lat lon cfg.gw_k (some cfg.gw_max_km) wells

/-- `depth_m = gw_info.get("avg_depth_m_bgl")` with the None default on a
missing stats dict (`asset_evaluator.py` 268-275). -/
def claimGwDepth (cfg : EvalConfig) (wells : List Well)
    (d : ℚ → ℚ → ℚ → ℚ → ℚ) (lat lon : ℚ) : Option ℚ :=
  match claimGwStats cfg wells d lat lon with
  | some st => statsGet st "avg_depth_m_bgl"
  | none => none

/-- `mean_dist_km = gw_info.get("mean_distance_km")`
(`asset_evaluator.py` 270): the stats dict has no such key (it carries
`min_distance_km`), so this read can only yield `None`. -/
def claimGwMeanDist (cfg : EvalConfig) (wells : List Well)
    (d : ℚ → ℚ → ℚ → ℚ → ℚ) (lat lon : ℚ) : Option ℚ :=
  match claimGwStats cfg wells d lat lon with
  | some st => statsGet st "mean_distance_km"
  | none => none

/-- `k_used = gw_info.get("k_used", 0)` (`asset_evaluator.py` 271-275). -/
def claimGwKUsed (cfg : EvalConfig) (wells : List Well)
    (d : ℚ → ℚ → ℚ → ℚ → ℚ) (lat lon : ℚ) : ℕ :=
  match claimGwStats cfg wells d lat lon with
  | some st => st.k_used
  | none => 0

/-- `gw_ok = (depth_m is not None) and (depth_m <= groundwater_max_depth_m)`
(`asset_evaluator.py` 277). -/
def gwOk (depth_m : Option ℚ) (gwMax : ℚ) : Prop :=
  ∃ g, depth_m = some g ∧ g ≤ gwMax

instance (depth_m : Option ℚ) (gwMax : ℚ) : Decidable (gwOk depth_m gwMax) := by
  unfold gwOk; cases depth_m <;> simp <;> infer_instance

/-- The decision rule and reason list (`asset_evaluator.py` 277-301). -/
def decisionVerdict (gwMax veg wat : ℚ) (depth_m : Option ℚ) (k_used : ℕ) :
    Verdict :=
  if 2 ≤ veg ∧ (0 < wat ∨ gwOk depth_m gwMax) then
    Verdict.sufficient
  else
    Verdict.insufficient
      ((if ¬ 2 ≤ veg then [Reason.vegDeficit] else [])
        ++ (if ¬ (0 < wat ∨ gwOk depth_m gwMax) then
              [Reason.noSurfaceWater]
                ++ (if depth_m = none then [Reason.gwUnknown]
                    else [Reason.gwTooDeep])
            else [])
        ++ (if k_used ≠ 0 then [Reason.gwSampledNote k_used] else []))

/-- The body of the per-claim loop after a successful coordinate parse
(`asset_evaluator.py` 204-320): per-class areas from the detected assets,
groundwater stats (read back through dict `.get`, including the dead
`mean_distance_km` key), the decision rule, the reason list, rounding of
the reported fields, and the scheme recommendations computed from the
rounded row. -/
def evaluateValid (cfg : EvalConfig) (claim : ClaimRow) (detected : List Asset)
    (wells : List Well) (d : ℚ → ℚ → ℚ → ℚ → ℚ) (lat lon : ℚ) : ResultRow :=
  let farm_area_ha := area_sum detected "cropland"
  let forest_area_ha := area_sum detected "forest"
  let water_area_ha := area_sum detected "water_body"
  let urban_area_ha := area_sum detected "urban"
  let barren_area_ha := area_sum detected "barren_land"
  let vegetation_area := farm_area_ha + forest_area_ha
  let depth_m := claimGwDepth cfg wells d lat lon
  let mean_dist_km := claimGwMeanDist cfg wells d lat lon
  let k_used := claimGwKUsed cfg wells d lat lon
  let evaluation :=
    decisionVerdict cfg.groundwater_max_depth_m vegetation_area water_area_ha
      depth_m k_used
  let row : ResultRow :=
    { patta_holder := claim.patta_holder
      village := claim.village
      coordinates := claim.coordinates
      claim_status := claim.claim_status
      vegetation_area := some (pyRound vegetation_area 2)
      water_area := some (pyRound water_area_ha 2)
      urban_area := some (pyRound urban_area_ha 2)
      barren_area := some (pyRound barren_area_ha 2)
      groundwater_depth := depth_m.map (fun v => pyRound v 2)
      gw_distance_to_well_km := mean_dist_km.map (fun v => pyRound v 2)
      gw_k_used := k_used
      evaluation := evaluation
      recommended_schemes := [] }
  { row with
    recommended_schemes :=
      recommend_schemes
        { vegetation_area := row.vegetation_area
          water_area := row.water_area
          urban_area := row.urban_area
          barren_area := row.barren_area
          groundwater_depth := row.groundwater_depth } 4 }

/-- One iteration of the claims loop (`asset_evaluator.py` 172-320):
parse the coordinate text; on failure emit the invalid row and skip the
geometry pipeline, otherwise run the full evaluation. -/
def evaluateClaim (cfg : EvalConfig) (claim : ClaimRow) (detected : List Asset)
    (wells : List Well) (d : ℚ → ℚ → ℚ → ℚ → ℚ) : ResultRow :=
  match parseCoords claim.coordinates with
  | none => invalidResultRow claim
  | some (lat, lon) => evaluateValid cfg claim detected wells d lat lon

/-- The whole claims loop: one result row per claim, in order
(`asset_evaluator.py` 167-322).  `mapper` abstracts the satellite
detection plus buffer intersection for a claim. -/
def evaluateAssets (cfg : EvalConfig) (claims : List ClaimRow)
    (mapper : ClaimRow → List Asset) (wells : List Well)
    (d : ℚ → ℚ → ℚ → ℚ → ℚ) : List ResultRow :=
  claims.map (fun c => evaluateClaim cfg c (mapper c) wells d)

/-! ## Water mask and morphological cleanup (`ai_models/asset_mapping.py`)

An image is a Boolean field over pixel coordinates `ℤ × ℤ` restricted to
an `H × W` grid; out-of-grid reads return the OpenCV constant border
value (the neutral element: `false` for dilation, `true` for erosion, so
the border neither adds nor erodes foreground).  The structuring element
is the 3x3 ones kernel of `clean_mask` (`asset_mapping.py` 135).
`cv2.morphologyEx(MORPH_CLOSE, iterations=n)` dilates `n` times then
erodes `n` times. -/

/-- The 3x3 kernel offsets, `np.ones((3, 3))`. -/
def kernelOffsets : List (ℤ × ℤ) :=
  [(-1, -1), (-1, 0), (-1, 1), (0, -1), (0, 0), (0, 1), (1, -1), (1, 0), (1, 1)]

/-- Read pixel `(i, j)`, with the constant border value outside the grid. -/
def pixel (H W : ℕ) (border : Bool) (m : ℤ → ℤ → Bool) (i j : ℤ) : Bool :=
  if 0 ≤ i ∧ i < H ∧ 0 ≤ j ∧ j < W then m i j else border

/-- `cv2.dilate` with the 3x3 ones kernel: max over the neighborhood. -/
def dilate (H W : ℕ) (m : ℤ → ℤ → Bool) : ℤ → ℤ → Bool :=
  fun i j => kernelOffsets.any (fun o => pixel H W false m (i + o.1) (j + o.2))

/-- `cv2.erode` with the 3x3 ones kernel: min over the neighborhood. -/
def erode (H W : ℕ) (m : ℤ → ℤ → Bool) : ℤ → ℤ → Bool :=
  fun i j => kernelOffsets.all (fun o => pixel H W true m (i + o.1) (j + o.2))

/-- `cv2.morphologyEx(m, cv2.MORPH_CLOSE, kernel, iterations=n)` guarded by
`if close_iters:` — dilate `n` times then erode `n` times. -/
def closingStage (H W n : ℕ) (m : ℤ → ℤ → Bool) : ℤ → ℤ → Bool :=
  if n ≠ 0 then (erode H W)^[n] ((dilate H W)^[n] m) else m

/-- `cv2.morphologyEx(m, cv2.MORPH_OPEN, kernel, iterations=n)` guarded by
`if open_iters:` — erode `n` times then dilate `n` times. -/
def openingStage (H W n : ℕ) (m : ℤ → ℤ → Bool) : ℤ → ℤ → Bool :=
  if n ≠ 0 then (dilate H W)^[n] ((erode H W)^[n] m) else m

/-- `cv2.dilate(m, kernel, iterations=n)` guarded by `if dilate_iters:`. -/
def dilateStage (H W n : ℕ) (m : ℤ → ℤ → Bool) : ℤ → ℤ → Bool :=
  if n ≠ 0 then (dilate H W)^[n] m else m

/-- `clean_mask(binary_mask, close_iters, open_iters, dilate_iters)`
(`asset_mapping.py` 129-142): closing, then opening, then plain dilation,
each skipped when its iteration count is 0. -/
def clean_mask (H W : ℕ) (closeIters openIters dilateIters : ℕ)
    (m : ℤ → ℤ → Bool) : ℤ → ℤ → Bool :=
  dilateStage H W dilateIters
    (openingStage H W openIters (closingStage H W closeIters m))

/-- The raw water mask of `detect_assets` (`asset_mapping.py` 286) with the
MNDWI cutoff `t` as a parameter (the source hardcodes `-0.05`):
`(mndwi > t) | ((ndwi > 0.05) & (ndvi < 0.30) & (bsi < 0.0))`. -/
def waterRaw (mndwi ndwi ndvi bsi : ℤ → ℤ → ℚ) (t : ℚ) : ℤ → ℤ → Bool :=
  fun i j =>
    decide (t < mndwi i j)
      || (decide (1/20 < ndwi i j) && decide (ndvi i j < 3/10)
            && decide (bsi i j < 0))

/-- The cleaned water mask of `detect_assets` (`asset_mapping.py` 286-287):
`clean_mask(water_raw, close_iters=2, open_iters=0, dilate_iters=3)`. -/
def waterMask (H W : ℕ) (mndwi ndwi ndvi bsi : ℤ → ℤ → ℚ) (t : ℚ) :
    ℤ → ℤ → Bool :=
  clean_mask H W 2 0 3 (waterRaw mndwi ndwi ndvi bsi t)

/-- Pixel-wise containment of masks. -/
def MaskLE (m1 m2 : ℤ → ℤ → Bool) : Prop :=
  ∀ i j, m1 i j = true → m2 i j = true

/-- The reason list carried by a verdict (empty for `sufficient`). -/
def verdictReasons : Verdict → List Reason
  | Verdict.sufficient => []
  | Verdict.insufficient rs => rs

/-- A metrics row with adequate surface water (0.1 ha) and an unknown
groundwater depth, used to probe the water-infrastructure rule. -/
def waterOkGwUnknownRow : EngineRow :=
  { vegetation_area := some 0
    water_area := some (1/10)
    barren_area := some 0
    urban_area := some 0
    groundwater_depth := none
    gw_distance_to_well_km := none }

/-! ## Properties of the embedded operations, and the claim theorems -/

theorem insertLt_perm {α : Type} (lt : α → α → Bool) (a : α) (l : List α) :
    (insertLt lt a l).Perm (a :: l) := by
  induction l with
  | nil => simp [insertLt]
  | cons b l ih =>
      simp only [insertLt]
      by_cases h : lt b a
      · simp only [h, if_pos]
        exact ((ih.cons b).trans (List.Perm.swap a b l))
      · simp [h]

theorem sortLt_perm {α : Type} (lt : α → α → Bool) (l : List α) :
    (sortLt lt l).Perm l := by
  induction l with
  | nil => simp [sortLt]
  | cons a l ih =>
      exact (insertLt_perm lt a (sortLt lt l)).trans (ih.cons a)

theorem mem_sortLt {α : Type} (lt : α → α → Bool) (l : List α) (x : α) :
    x ∈ sortLt lt l ↔ x ∈ l :=
  (sortLt_perm lt l).mem_iff

theorem length_sortLt {α : Type} (lt : α → α → Bool) (l : List α) :
    (sortLt lt l).length = l.length :=
  (sortLt_perm lt l).length_eq

theorem insertLt_pairwise {α : Type} (lt : α → α → Bool)
    (hasym : ∀ x y, lt x y = true → lt y x = false)
    (hneg : ∀ x y z, lt x z = true → lt x y = true ∨ lt y z = true)
    (a : α) (l : List α)
    (h : l.Pairwise fun x y => lt y x = false) :
    (insertLt lt a l).Pairwise (fun x y => lt y x = false) := by
  induction l with
  | nil => simp [insertLt]
  | cons b l ih =>
      rcases List.pairwise_cons.mp h with ⟨hb, hl⟩
      simp only [insertLt]
      by_cases hba : lt b a = true
      · rw [if_pos hba]
        refine List.pairwise_cons.mpr ⟨?_, ih hl⟩
        intro c hc
        have hc' : c ∈ a :: l := (insertLt_perm lt a l).mem_iff.mp hc
        rcases List.mem_cons.mp hc' with rfl | hcl
        · exact hasym b c hba
        · exact hb c hcl
      · have hba' : lt b a = false := by
          cases hx : lt b a with
          | false => rfl
          | true => exact absurd hx hba
        rw [if_neg (by simp [hba'])]
        refine List.pairwise_cons.mpr ⟨?_, List.pairwise_cons.mpr ⟨hb, hl⟩⟩
        intro c hc
        rcases List.mem_cons.mp hc with rfl | hcl
        · exact hba'
        · cases hx : lt c a with
          | false => rfl
          | true =>
              exfalso
              rcases hneg c b a hx with h1 | h2
              · rw [hb c hcl] at h1; exact Bool.false_ne_true h1
              · rw [hba'] at h2; exact Bool.false_ne_true h2

theorem sortLt_pairwise {α : Type} (lt : α → α → Bool)
    (hasym : ∀ x y, lt x y = true → lt y x = false)
    (hneg : ∀ x y z, lt x z = true → lt x y = true ∨ lt y z = true)
    (l : List α) :
    (sortLt lt l).Pairwise (fun x y => lt y x = false) := by
  induction l with
  | nil => simp [sortLt]
  | cons a l ih => exact insertLt_pairwise lt hasym hneg a _ ih

theorem lexLt_asymm {α : Type} (k1 : α → ℚ) (k2 : α → ℕ) :
    ∀ x y, lexLt k1 k2 x y = true → lexLt k1 k2 y x = false := by
  intro x y h
  cases hx : lexLt k1 k2 y x with
  | false => rfl
  | true =>
      exfalso
      simp only [lexLt, Bool.or_eq_true, Bool.and_eq_true, decide_eq_true_eq]
        at h hx
      rcases h with h | ⟨he, hn⟩ <;> rcases hx with h2 | ⟨he2, hn2⟩ <;>
        first | linarith | omega

theorem lexLt_negtrans {α : Type} (k1 : α → ℚ) (k2 : α → ℕ) :
    ∀ x y z, lexLt k1 k2 x z = true →
      lexLt k1 k2 x y = true ∨ lexLt k1 k2 y z = true := by
  intro x y z h
  simp only [lexLt, Bool.or_eq_true, Bool.and_eq_true, decide_eq_true_eq] at *
  rcases h with h | ⟨he, hn⟩
  · rcases lt_trichotomy (k1 x) (k1 y) with h1 | h1 | h1
    · exact Or.inl (Or.inl h1)
    · exact Or.inr (Or.inl (h1 ▸ h))
    · exact Or.inr (Or.inl (lt_trans h1 h))
  · rcases lt_trichotomy (k1 x) (k1 y) with h1 | h1 | h1
    · exact Or.inl (Or.inl h1)
    · rcases Nat.lt_or_ge (k2 x) (k2 y) with h2 | h2
      · exact Or.inl (Or.inr ⟨h1, h2⟩)
      · exact Or.inr (Or.inr ⟨h1 ▸ he, by omega⟩)
    · exact Or.inr (Or.inl (he ▸ h1))

theorem sortByKey_pairwise {α : Type} (k : α → ℚ) (l : List α) :
    (sortByKey k l).Pairwise (fun x y => k x ≤ k y) := by
  have h := sortLt_pairwise (lexLt k (fun _ => 0))
    (lexLt_asymm k _) (lexLt_negtrans k _) l
  refine h.imp ?_
  intro a b hab
  simp only [lexLt, Bool.or_eq_false_iff, Bool.and_eq_false_iff,
    decide_eq_false_iff_not, not_lt] at hab
  exact hab.1

theorem mem_sortByKey {α : Type} (k : α → ℚ) (l : List α) (x : α) :
    x ∈ sortByKey k l ↔ x ∈ l :=
  mem_sortLt _ l x

theorem pyRoundInt_ge_floor (q : ℚ) : ⌊q⌋ ≤ pyRoundInt q := by
  unfold pyRoundInt
  split_ifs <;> omega

theorem pyRoundInt_le_floor_add_one (q : ℚ) : pyRoundInt q ≤ ⌊q⌋ + 1 := by
  unfold pyRoundInt
  split_ifs <;> omega

theorem pyRoundInt_mono {q1 q2 : ℚ} (h : q1 ≤ q2) :
    pyRoundInt q1 ≤ pyRoundInt q2 := by
  have hf : ⌊q1⌋ ≤ ⌊q2⌋ := Int.floor_le_floor h
  rcases lt_or_eq_of_le hf with hlt | heq
  · calc pyRoundInt q1 ≤ ⌊q1⌋ + 1 := pyRoundInt_le_floor_add_one q1
      _ ≤ ⌊q2⌋ := by omega
      _ ≤ pyRoundInt q2 := pyRoundInt_ge_floor q2
  · unfold pyRoundInt
    rw [← heq]
    have hr : q1 - ⌊q1⌋ ≤ q2 - ⌊q1⌋ := by linarith
    split_ifs <;> first | omega | linarith

theorem pyRoundInt_nonneg {q : ℚ} (h : 0 ≤ q) : 0 ≤ pyRoundInt q := by
  have : (0 : ℤ) ≤ ⌊q⌋ := Int.floor_nonneg.mpr h
  have := pyRoundInt_ge_floor q
  omega

theorem pyRound_mono {q1 q2 : ℚ} (d : ℕ) (h : q1 ≤ q2) :
    pyRound q1 d ≤ pyRound q2 d := by
  unfold pyRound
  have hp : (0 : ℚ) < 10 ^ d := by positivity
  have hm : q1 * 10 ^ d ≤ q2 * 10 ^ d := by nlinarith
  have hc : (pyRoundInt (q1 * 10 ^ d) : ℚ) ≤ (pyRoundInt (q2 * 10 ^ d) : ℚ) := by
    exact_mod_cast pyRoundInt_mono hm
  gcongr

theorem pyRound_nonneg {q : ℚ} (d : ℕ) (h : 0 ≤ q) : 0 ≤ pyRound q d := by
  unfold pyRound
  have hp : (0 : ℚ) < 10 ^ d := by positivity
  have : (0 : ℤ) ≤ pyRoundInt (q * 10 ^ d) :=
    pyRoundInt_nonneg (by positivity)
  positivity

example : parseCoords "not,a,point" = none := by decide

example : parseCoords "" = none := by decide

example : (parseCoords "22.5, 79.1").isSome = true := by decide

example : (parseCoords "10,20,30").isSome = true := by decide

theorem pixel_mono {H W : ℕ} {b : Bool} {m1 m2 : ℤ → ℤ → Bool}
    (h : MaskLE m1 m2) (i j : ℤ) :
    pixel H W b m1 i j = true → pixel H W b m2 i j = true := by
  unfold pixel
  split_ifs with hin
  · exact h i j
  · exact id

theorem dilate_mono {H W : ℕ} {m1 m2 : ℤ → ℤ → Bool} (h : MaskLE m1 m2) :
    MaskLE (dilate H W m1) (dilate H W m2) := by
  intro i j hm
  simp only [dilate, List.any_eq_true] at hm ⊢
  rcases hm with ⟨o, ho, hp⟩
  exact ⟨o, ho, pixel_mono h _ _ hp⟩

theorem erode_mono {H W : ℕ} {m1 m2 : ℤ → ℤ → Bool} (h : MaskLE m1 m2) :
    MaskLE (erode H W m1) (erode H W m2) := by
  intro i j hm
  simp only [erode, List.all_eq_true] at hm ⊢
  intro o ho
  exact pixel_mono h _ _ (hm o ho)

theorem iterate_mono {f : (ℤ → ℤ → Bool) → (ℤ → ℤ → Bool)}
    (hf : ∀ {a b}, MaskLE a b → MaskLE (f a) (f b)) (n : ℕ)
    {m1 m2 : ℤ → ℤ → Bool} (h : MaskLE m1 m2) :
    MaskLE (f^[n] m1) (f^[n] m2) := by
  induction n generalizing m1 m2 with
  | zero => simpa using h
  | succ n ih =>
      rw [Function.iterate_succ_apply, Function.iterate_succ_apply]
      exact ih (hf h)

theorem closingStage_mono {H W : ℕ} (n : ℕ) {m1 m2 : ℤ → ℤ → Bool}
    (h : MaskLE m1 m2) :
    MaskLE (closingStage H W n m1) (closingStage H W n m2) := by
  unfold closingStage
  split_ifs
  · exact iterate_mono (fun hab => erode_mono hab) n
      (iterate_mono (fun hab => dilate_mono hab) n h)
  · exact h

theorem openingStage_mono {H W : ℕ} (n : ℕ) {m1 m2 : ℤ → ℤ → Bool}
    (h : MaskLE m1 m2) :
    MaskLE (openingStage H W n m1) (openingStage H W n m2) := by
  unfold openingStage
  split_ifs
  · exact iterate_mono (fun hab => dilate_mono hab) n
      (iterate_mono (fun hab => erode_mono hab) n h)
  · exact h

theorem dilateStage_mono {H W : ℕ} (n : ℕ) {m1 m2 : ℤ → ℤ → Bool}
    (h : MaskLE m1 m2) :
    MaskLE (dilateStage H W n m1) (dilateStage H W n m2) := by
  unfold dilateStage
  split_ifs
  · exact iterate_mono (fun hab => dilate_mono hab) n h
  · exact h

theorem clean_mask_mono {H W : ℕ} (c o dl : ℕ) {m1 m2 : ℤ → ℤ → Bool}
    (h : MaskLE m1 m2) :
    MaskLE (clean_mask H W c o dl m1) (clean_mask H W c o dl m2) :=
  dilateStage_mono dl (openingStage_mono o (closingStage_mono c h))

theorem waterRaw_antitone (mndwi ndwi ndvi bsi : ℤ → ℤ → ℚ) {t1 t2 : ℚ}
    (h : t1 ≤ t2) :
    MaskLE (waterRaw mndwi ndwi ndvi bsi t2) (waterRaw mndwi ndwi ndvi bsi t1) := by
  intro i j hm
  simp only [waterRaw, Bool.or_eq_true, Bool.and_eq_true, decide_eq_true_eq]
    at hm ⊢
  rcases hm with hm | hm
  · exact Or.inl (lt_of_le_of_lt h hm)
  · exact Or.inr hm

theorem claimGwMeanDist_eq_none (cfg : EvalConfig) (wells : List Well)
    (d : ℚ → ℚ → ℚ → ℚ → ℚ) (lat lon : ℚ) :
    claimGwMeanDist cfg wells d lat lon = none := by
  unfold claimGwMeanDist
  cases claimGwStats cfg wells d lat lon with
  | none => rfl
  | some st =>
      show statsGet st "mean_distance_km" = none
      unfold statsGet
      rw [if_neg (by decide), if_neg (by decide)]

/-- C6: For every pair of index grids (MNDWI, NDWI, NDVI, BSI) and every
pair of MNDWI cutoffs `t1 ≤ t2`, the cleaned water mask produced with
cutoff `t1` contains, pixel-wise, the cleaned water mask produced with
cutoff `t2`: loosening the MNDWI threshold never removes a foreground
pixel, including after the morphological closing and dilation cleanup. -/
theorem C6_water_mask_monotone (H W : ℕ) (mndwi ndwi ndvi bsi : ℤ → ℤ → ℚ)
    (t1 t2 : ℚ) (h : t1 ≤ t2) :
    MaskLE (waterMask H W mndwi ndwi ndvi bsi t2)
      (waterMask H W mndwi ndwi ndvi bsi t1) :=
  clean_mask_mono 2 0 3 (waterRaw_antitone mndwi ndwi ndvi bsi h)

theorem C6_water_mask_monotone_witness :
    ((-1/5 : ℚ) ≤ -1/20)
      ∧ MaskLE
          (waterMask 8 8 (fun _ _ => 0) (fun _ _ => 0) (fun _ _ => 0)
            (fun _ _ => 0) (-1/20))
          (waterMask 8 8 (fun _ _ => 0) (fun _ _ => 0) (fun _ _ => 0)
            (fun _ _ => 0) (-1/5)) :=
  ⟨by norm_num,
   C6_water_mask_monotone 8 8 _ _ _ _ (-1/5) (-1/20) (by norm_num)⟩

/-- C2: The claim says `gw_distance_to_well_km` equals the minimum
great-circle distance among the matched wells.  In the code the stats dict
carries that minimum under the key `min_distance_km`, but `evaluate_assets`
reads the nonexistent key `mean_distance_km`, so the reported well-distance
field is `None` on every input — the minimum distance is computed and then
dropped. -/
theorem C2_well_distance_field_always_none :
    (∀ st : GWStats,
        statsGet st "mean_distance_km" = none
          ∧ statsGet st "min_distance_km" = st.min_distance_km)
      ∧ (∀ (cfg : EvalConfig) (claim : ClaimRow) (detected : List Asset)
          (wells : List Well) (d : ℚ → ℚ → ℚ → ℚ → ℚ) (lat lon : ℚ),
          (evaluateValid cfg claim detected wells d lat lon).gw_distance_to_well_km
            = none) := by
  constructor
  · intro st
    constructor
    · unfold statsGet
      rw [if_neg (by decide), if_neg (by decide)]
    · unfold statsGet
      rw [if_neg (by decide), if_pos rfl]
  · intro cfg claim detected wells d lat lon
    have h := claimGwMeanDist_eq_none cfg wells d lat lon
    show (claimGwMeanDist cfg wells d lat lon).map (fun v => pyRound v 2) = none
    rw [h]
    rfl

theorem area_sum_nonneg (detected : List Asset) (t : String)
    (h : ∀ a ∈ detected, 0 ≤ a.area_ha) : 0 ≤ area_sum detected t := by
  unfold area_sum
  apply List.sum_nonneg
  intro x hx
  rcases List.mem_map.mp hx with ⟨a, ha, rfl⟩
  exact h a (List.mem_of_mem_filter ha)

/-- C7: For every evaluated claim with valid coordinates,
`vegetation_area` equals `forest_area` plus `cropland_area`, and every
per-class area (vegetation, water, urban, barren) is nonnegative — both
the planar sums and the rounded row fields (polygon areas are
nonnegative, which is the hypothesis on the detected assets). -/
theorem C7_vegetation_sum_and_nonneg (cfg : EvalConfig) (claim : ClaimRow)
    (detected : List Asset) (wells : List Well) (d : ℚ → ℚ → ℚ → ℚ → ℚ)
    (lat lon : ℚ) (h : ∀ a ∈ detected, 0 ≤ a.area_ha) :
    vegetationArea detected
        = area_sum detected "forest" + area_sum detected "cropland"
      ∧ 0 ≤ vegetationArea detected
      ∧ 0 ≤ area_sum detected "water_body"
      ∧ 0 ≤ area_sum detected "urban"
      ∧ 0 ≤ area_sum detected "barren_land"
      ∧ (evaluateValid cfg claim detected wells d lat lon).vegetation_area
          = some (pyRound (vegetationArea detected) 2)
      ∧ 0 ≤ ((evaluateValid cfg claim detected wells d lat lon).vegetation_area).getD 0
      ∧ 0 ≤ ((evaluateValid cfg claim detected wells d lat lon).water_area).getD 0
      ∧ 0 ≤ ((evaluateValid cfg claim detected wells d lat lon).urban_area).getD 0
      ∧ 0 ≤ ((evaluateValid cfg claim detected wells d lat lon).barren_area).getD 0 := by
  have hveg : 0 ≤ vegetationArea detected :=
    add_nonneg (area_sum_nonneg detected "cropland" h)
      (area_sum_nonneg detected "forest" h)
  refine ⟨add_comm (area_sum detected "cropland") (area_sum detected "forest"),
    hveg,
    area_sum_nonneg detected "water_body" h,
    area_sum_nonneg detected "urban" h,
    area_sum_nonneg detected "barren_land" h,
    rfl, ?_, ?_, ?_, ?_⟩
  · show 0 ≤ (some (pyRound (vegetationArea detected) 2)).getD 0
    exact pyRound_nonneg 2 hveg
  · show 0 ≤ (some (pyRound (area_sum detected "water_body") 2)).getD 0
    exact pyRound_nonneg 2 (area_sum_nonneg detected "water_body" h)
  · show 0 ≤ (some (pyRound (area_sum detected "urban") 2)).getD 0
    exact pyRound_nonneg 2 (area_sum_nonneg detected "urban" h)
  · show 0 ≤ (some (pyRound (area_sum detected "barren_land") 2)).getD 0
    exact pyRound_nonneg 2 (area_sum_nonneg detected "barren_land" h)

theorem C7_vegetation_sum_and_nonneg_witness :
    vegetationArea [Asset.mk "forest" 2, Asset.mk "cropland" (1/2)]
      = area_sum [Asset.mk "forest" 2, Asset.mk "cropland" (1/2)] "forest"
        + area_sum [Asset.mk "forest" 2, Asset.mk "cropland" (1/2)] "cropland" :=
  (C7_vegetation_sum_and_nonneg {} (ClaimRow.mk "A" "V" "22,79" "pending")
    [Asset.mk "forest" 2, Asset.mk "cropland" (1/2)] [] (fun _ _ _ _ => 0) 22 79
    (by intro a ha
        rcases List.mem_cons.mp ha with rfl | ha2
        · norm_num
        · rcases List.mem_cons.mp ha2 with rfl | ha3
          · norm_num
          · simp at ha3)).1

/-- C8: A claim whose coordinate text fails the two-float parse (such as
`"not,a,point"`) is marked with the invalid-coordinates insufficient
verdict and an empty scheme list, the geometry pipeline is skipped (the
detected assets are never read — the result is the fixed invalid row), and
the rest of the batch is still processed (row `i` of the batch output is
the evaluation of claim `i`, for every index). -/
theorem C8_invalid_coordinates_path :
    (∀ (cfg : EvalConfig) (claim : ClaimRow) (detected : List Asset)
        (wells : List Well) (d : ℚ → ℚ → ℚ → ℚ → ℚ),
        parseCoords claim.coordinates = none →
          evaluateClaim cfg claim detected wells d = invalidResultRow claim)
      ∧ parseCoords "not,a,point" = none
      ∧ (∀ claim : ClaimRow,
          (invalidResultRow claim).evaluation
              = Verdict.insufficient [Reason.invalidCoordinates]
            ∧ (invalidResultRow claim).recommended_schemes = [])
      ∧ (∀ (cfg : EvalConfig) (claims : List ClaimRow)
          (mapper : ClaimRow → List Asset) (wells : List Well)
          (d : ℚ → ℚ → ℚ → ℚ → ℚ) (i : ℕ),
          (evaluateAssets cfg claims mapper wells d).get? i
            = (claims.get? i).map (fun c => evaluateClaim cfg c (mapper c) wells d)) := by
  refine ⟨?_, by decide, fun claim => ⟨rfl, rfl⟩, ?_⟩
  · intro cfg claim detected wells d hp
    unfold evaluateClaim
    rw [hp]
  · intro cfg claims mapper wells d i
    unfold evaluateAssets
    exact List.get?_map _ _ _

theorem C8_invalid_coordinates_path_witness :
    evaluateClaim {} (ClaimRow.mk "Asha" "V" "not,a,point" "pending") []
        [] (fun _ _ _ _ => 0)
      = invalidResultRow (ClaimRow.mk "Asha" "V" "not,a,point" "pending") :=
  C8_invalid_coordinates_path.1 {} (ClaimRow.mk "Asha" "V" "not,a,point" "pending")
    [] [] (fun _ _ _ _ => 0) (by decide)

theorem decisionVerdict_spec (gwMax veg wat : ℚ) (depth : Option ℚ) (k : ℕ) :
    (decisionVerdict gwMax veg wat depth k = Verdict.sufficient
        ↔ 2 ≤ veg ∧ (0 < wat ∨ gwOk depth gwMax))
      ∧ (Reason.vegDeficit ∈ verdictReasons (decisionVerdict gwMax veg wat depth k)
        ↔ ¬ (2 ≤ veg ∧ (0 < wat ∨ gwOk depth gwMax)) ∧ veg < 2)
      ∧ (Reason.noSurfaceWater ∈ verdictReasons (decisionVerdict gwMax veg wat depth k)
        ↔ ¬ (2 ≤ veg ∧ (0 < wat ∨ gwOk depth gwMax))
            ∧ ¬ (0 < wat ∨ gwOk depth gwMax))
      ∧ (Reason.gwUnknown ∈ verdictReasons (decisionVerdict gwMax veg wat depth k)
        ↔ ¬ (2 ≤ veg ∧ (0 < wat ∨ gwOk depth gwMax))
            ∧ ¬ (0 < wat ∨ gwOk depth gwMax) ∧ depth = none)
      ∧ (Reason.gwTooDeep ∈ verdictReasons (decisionVerdict gwMax veg wat depth k)
        ↔ ¬ (2 ≤ veg ∧ (0 < wat ∨ gwOk depth gwMax))
            ∧ ¬ (0 < wat ∨ gwOk depth gwMax) ∧ depth ≠ none) := by
  unfold decisionVerdict
  by_cases hmain : 2 ≤ veg ∧ (0 < wat ∨ gwOk depth gwMax)
  · rw [if_pos hmain]
    refine ⟨by simp [hmain], ?_, ?_, ?_, ?_⟩ <;> simp [verdictReasons, hmain]
  · rw [if_neg hmain]
    refine ⟨by simp [hmain], ?_, ?_, ?_, ?_⟩ <;>
      · simp only [verdictReasons, List.mem_append, List.mem_cons,
          List.mem_singleton, List.not_mem_nil]
        split_ifs <;> simp_all <;> omega

/-- C1: For every claim with valid coordinates, the verdict is sufficient
iff vegetation_area ≥ 2.0 ha AND (water_area > 0 OR the known groundwater
depth is ≤ the configured maximum, default 15 m bgl); otherwise it is
insufficient and the reason list itemizes each failed sub-condition:
vegetation deficit, no surface water, and groundwater too deep or unknown
(the latter two exactly when the water-or-groundwater disjunction fails). -/
theorem C1_decision_rule (cfg : EvalConfig) (claim : ClaimRow)
    (detected : List Asset) (wells : List Well) (d : ℚ → ℚ → ℚ → ℚ → ℚ)
    (lat lon : ℚ) :
    ((evaluateValid cfg claim detected wells d lat lon).evaluation
        = Verdict.sufficient
      ↔ 2 ≤ vegetationArea detected
          ∧ (0 < area_sum detected "water_body"
              ∨ gwOk (claimGwDepth cfg wells d lat lon) cfg.groundwater_max_depth_m))
    ∧ (Reason.vegDeficit
          ∈ verdictReasons (evaluateValid cfg claim detected wells d lat lon).evaluation
      ↔ ¬ (2 ≤ vegetationArea detected
            ∧ (0 < area_sum detected "water_body"
                ∨ gwOk (claimGwDepth cfg wells d lat lon) cfg.groundwater_max_depth_m))
          ∧ vegetationArea detected < 2)
    ∧ (Reason.noSurfaceWater
          ∈ verdictReasons (evaluateValid cfg claim detected wells d lat lon).evaluation
      ↔ ¬ (2 ≤ vegetationArea detected
            ∧ (0 < area_sum detected "water_body"
                ∨ gwOk (claimGwDepth cfg wells d lat lon) cfg.groundwater_max_depth_m))
          ∧ ¬ (0 < area_sum detected "water_body"
                ∨ gwOk (claimGwDepth cfg wells d lat lon) cfg.groundwater_max_depth_m))
    ∧ (Reason.gwUnknown
          ∈ verdictReasons (evaluateValid cfg claim detected wells d lat lon).evaluation
      ↔ ¬ (2 ≤ vegetationArea detected
            ∧ (0 < area_sum detected "water_body"
                ∨ gwOk (claimGwDepth cfg wells d lat lon) cfg.groundwater_max_depth_m))
          ∧ ¬ (0 < area_sum detected "water_body"
                ∨ gwOk (claimGwDepth cfg wells d lat lon) cfg.groundwater_max_depth_m)
          ∧ claimGwDepth cfg wells d lat lon = none)
    ∧ (Reason.gwTooDeep
          ∈ verdictReasons (evaluateValid cfg claim detected wells d lat lon).evaluation
      ↔ ¬ (2 ≤ vegetationArea detected
            ∧ (0 < area_sum detected "water_body"
                ∨ gwOk (claimGwDepth cfg wells d lat lon) cfg.groundwater_max_depth_m))
          ∧ ¬ (0 < area_sum detected "water_body"
                ∨ gwOk (claimGwDepth cfg wells d lat lon) cfg.groundwater_max_depth_m)
          ∧ claimGwDepth cfg wells d lat lon ≠ none) := by
  have he : (evaluateValid cfg claim detected wells d lat lon).evaluation
      = decisionVerdict cfg.groundwater_max_depth_m (vegetationArea detected)
          (area_sum detected "water_body") (claimGwDepth cfg wells d lat lon)
          (claimGwKUsed cfg wells d lat lon) := rfl
  rw [he]
  exact decisionVerdict_spec cfg.groundwater_max_depth_m (vegetationArea detected)
    (area_sum detected "water_body") (claimGwDepth cfg wells d lat lon)
    (claimGwKUsed cfg wells d lat lon)

/-- C5: For every query point, radius and well dataset (and `k ≥ 1`), the
k-nearest lookup returns only wells whose distance from the query point is
≤ `max_km`, the returned list is sorted ascending by distance, it has at
most `k` entries, and when no well lies within `max_km` the result is the
empty list and the stats result is `None` rather than an error. -/
theorem C5_k_nearest_spec (d : ℚ → ℚ → ℚ → ℚ → ℚ) (lat lon : ℚ) (k : ℕ)
    (maxkm : ℚ) (wells : List Well) (hk : 1 ≤ k) :
    (∀ e ∈ groundwater_k_nearest d lat lon k (some maxkm) wells,
        d lat lon e.well_lat e.well_lon ≤ maxkm)
      ∧ (groundwater_k_nearest d lat lon k (some maxkm) wells).Pairwise
          (fun e1 e2 => e1.distance_km ≤ e2.distance_km)
      ∧ (groundwater_k_nearest d lat lon k (some maxkm) wells).length ≤ k
      ∧ ((∀ w ∈ wells, ¬ d lat lon w.lat w.lon ≤ maxkm) →
          groundwater_k_nearest d lat lon k (some maxkm) wells = []
            ∧ groundwater_stats d lat lon k (some maxkm) wells = none) := by
  have hknear : groundwater_k_nearest d lat lon k (some maxkm) wells
      = if ((wells.map (fun w => (w, d lat lon w.lat w.lon))).filter
              (fun p : Well × ℚ => decide (p.2 ≤ maxkm))).isEmpty then []
        else
          (((sortByKey (fun p : Well × ℚ => p.2)
              ((wells.map (fun w => (w, d lat lon w.lat w.lon))).filter
                (fun p : Well × ℚ => decide (p.2 ≤ maxkm)))).take (max 1 k)).map
            (fun p : Well × ℚ =>
              { stationCode := p.1.stationCode
                depth_m_bgl := p.1.depth
                distance_km := pyRound p.2 3
                well_lat := p.1.lat
                well_lon := p.1.lon })) := rfl
  refine ⟨?_, ?_, ?_, ?_⟩
  · intro e he
    rw [hknear] at he
    split_ifs at he with hempty
    · simp at he
    · rcases List.mem_map.mp he with ⟨p, hp, rfl⟩
      have hp2 : p ∈ sortByKey (fun p : Well × ℚ => p.2)
          ((wells.map (fun w => (w, d lat lon w.lat w.lon))).filter
            (fun p : Well × ℚ => decide (p.2 ≤ maxkm))) :=
        List.take_subset _ _ hp
      have hp3 := (mem_sortByKey _ _ _).mp hp2
      rcases List.mem_filter.mp hp3 with ⟨hpw, hpd⟩
      rcases List.mem_map.mp hpw with ⟨w, hw, rfl⟩
      simpa using of_decide_eq_true hpd
  · rw [hknear]
    split_ifs with hempty
    · exact List.Pairwise.nil
    · refine List.Pairwise.map _ ?_
        ((sortByKey_pairwise (fun p : Well × ℚ => p.2) _).sublist
          (List.take_sublist _ _))
      intro a b hab
      exact pyRound_mono 3 hab
  · rw [hknear]
    split_ifs with hempty
    · simp
    · rw [List.length_map, List.length_take]
      have := min_le_left (max 1 k)
        ((sortByKey (fun p : Well × ℚ => p.2)
          ((wells.map (fun w => (w, d lat lon w.lat w.lon))).filter
            (fun p : Well × ℚ => decide (p.2 ≤ maxkm)))).length)
      omega
  · intro hall
    have hF : ((wells.map (fun w => (w, d lat lon w.lat w.lon))).filter
        (fun p : Well × ℚ => decide (p.2 ≤ maxkm))) = [] := by
      rw [List.filter_eq_nil]
      intro p hp
      rcases List.mem_map.mp hp with ⟨w, hw, rfl⟩
      simpa using hall w hw
    have hres : groundwater_k_nearest d lat lon k (some maxkm) wells = [] := by
      rw [hknear, hF]
      rfl
    refine ⟨hres, ?_⟩
    unfold groundwater_stats
    rw [hres]
    rfl

theorem C5_k_nearest_spec_witness :
    groundwater_k_nearest (fun _ _ _ _ => 200) 0 0 3 (some 150)
        [Well.mk "W1" 1 1 none] = []
      ∧ groundwater_stats (fun _ _ _ _ => 200) 0 0 3 (some 150)
        [Well.mk "W1" 1 1 none] = none :=
  (C5_k_nearest_spec (fun _ _ _ _ => 200) 0 0 3 150 [Well.mk "W1" 1 1 none]
      (by norm_num)).2.2.2
    (by intro w hw; norm_num)

/-- C4: Recommendation lists are sorted by non-increasing priority: the
rule engine's output is sorted descending by priority, and the priority
recommender's scored list is sorted descending by score with ties ordered
by the fixed `priority_order` rank (so two equal-priority entries that
both occur in the list appear in list order). -/
theorem C4_recommendations_sorted :
    (∀ row : EngineRow,
        ((engineRecommend row).1).Pairwise (fun a b => b.2 ≤ a.2))
      ∧ (∀ m : SchemeMetrics,
          (scoredSorted m).Pairwise
            (fun a b => b.2 ≤ a.2
              ∧ (a.2 = b.2 → priorityRank a.1 ≤ priorityRank b.1))) := by
  constructor
  · intro row
    have h := sortByKey_pairwise (fun p : String × ℚ => -p.2)
      (engineRecsUnsorted row)
    refine h.imp ?_
    intro a b hab
    simpa using hab
  · intro m
    have h := sortLt_pairwise
      (lexLt (fun p : String × ℚ => -p.2) (fun p : String × ℚ => priorityRank p.1))
      (lexLt_asymm _ _) (lexLt_negtrans _ _)
      ((schemeScores m).filter (fun p : String × ℚ => decide (0 < p.2)))
    refine h.imp ?_
    intro a b hab
    simp only [lexLt, Bool.or_eq_false_iff, Bool.and_eq_false_iff,
      decide_eq_false_iff_not, not_lt] at hab
    obtain ⟨h1, h2⟩ := hab
    refine ⟨by linarith, ?_⟩
    intro heq
    rcases h2 with h2 | h2
    · exact absurd (by rw [heq]) h2
    · exact h2

theorem dataGapRec_name (gwd : Option ℚ) (p : String × ℚ)
    (hp : p ∈ dataGapRec gwd) : p.1 = "Data gap note" := by
  cases gwd with
  | none => simp [dataGapRec] at hp
  | some gd =>
      simp only [dataGapRec] at hp
      split_ifs at hp with hc
      · rw [List.mem_singleton] at hp
        rw [hp]
      · simp at hp

/-- C3 (amended): The rule engine emits the water-infrastructure
recommendation iff surface water < 0.05 ha OR the groundwater depth is
known and exceeds 15 m.  (An unknown groundwater depth alone does not
trigger the rule; `"groundwater unknown"` is only appended to the reason
text of an already-triggered recommendation.) -/
theorem C3_water_infra_rule (row : EngineRow) :
    waterInfraScheme ∈ ((engineRecommend row).1).map Prod.fst
      ↔ (row.water_area.getD 0 < 1/20
          ∨ gwKnownGt15 row.groundwater_depth = true) := by
  have hmem : waterInfraScheme ∈ ((engineRecommend row).1).map Prod.fst
      ↔ ∃ p : String × ℚ, p ∈ engineRecsUnsorted row ∧ p.1 = waterInfraScheme := by
    constructor
    · intro h
      rcases List.mem_map.mp h with ⟨p, hp, he⟩
      exact ⟨p, (mem_sortByKey _ _ _).mp hp, he⟩
    · rintro ⟨p, hp, he⟩
      exact List.mem_map.mpr ⟨p, (mem_sortByKey _ _ _).mpr hp, he⟩
  rw [hmem]
  simp only [engineRecsUnsorted, List.mem_append]
  constructor
  · rintro ⟨p, hp, hname⟩
    rcases hp with ((((hp | hp) | hp) | hp) | hp)
    · split_ifs at hp with hc
      · exact hc
      · simp at hp
    · split_ifs at hp with hc
      · rw [List.mem_singleton] at hp
        rw [hp] at hname
        simp [waterInfraScheme] at hname
      · simp at hp
    · split_ifs at hp with hc
      · rw [List.mem_singleton] at hp
        rw [hp] at hname
        simp [waterInfraScheme] at hname
      · simp at hp
    · split_ifs at hp with hc
      · rw [List.mem_singleton] at hp
        rw [hp] at hname
        simp [waterInfraScheme] at hname
      · simp at hp
    · rw [dataGapRec_name row.gw_distance_to_well_km p hp] at hname
      simp [waterInfraScheme] at hname
  · intro hc
    refine ⟨(waterInfraScheme,
      min 95 (engineOverallPriority row + 10)), ?_, rfl⟩
    left; left; left; left
    rw [if_pos hc]
    exact List.mem_singleton.mpr rfl

theorem C3_water_infra_rule_counterexample :
    ¬ (waterInfraScheme ∈ ((engineRecommend waterOkGwUnknownRow).1).map Prod.fst)
      ∧ waterOkGwUnknownRow.groundwater_depth = none
      ∧ ¬ (waterOkGwUnknownRow.water_area.getD 0 < 1/20) := by
  have hrecs : engineRecsUnsorted waterOkGwUnknownRow
      = [("District Convergence (multi-dept) – water/irrigation priority",
          min 88 (engineOverallPriority waterOkGwUnknownRow + 5))] := by
    simp only [engineRecsUnsorted, waterOkGwUnknownRow]
    norm_num [gwKnownGt15, gwKnownLe15, dataGapRec]
  refine ⟨?_, rfl, by norm_num [waterOkGwUnknownRow]⟩
  intro h
  rcases List.mem_map.mp h with ⟨p, hp, hname⟩
  have hp2 := (mem_sortByKey (fun p : String × ℚ => -p.2) _ _).mp hp
  rw [hrecs] at hp2
  rw [List.mem_singleton] at hp2
  rw [hp2] at hname
  simp [waterInfraScheme] at hname

theorem chooseTop_length_le (n : ℕ) :
    ∀ (l : List (String × ℚ)) (seen : List String) (cnt : ℕ), cnt < n →
      (chooseTop n l seen cnt).length ≤ n - cnt := by
  intro l
  induction l with
  | nil => intro seen cnt h; simp [chooseTop]
  | cons p rest ih =>
      intro seen cnt h
      obtain ⟨name, s⟩ := p
      simp only [chooseTop]
      split_ifs with h1 h2
      · exact ih seen cnt h
      · simp
        omega
      · simp only [List.length_cons]
        have h3 := ih (aliasCanonical name :: seen) (cnt + 1) (by omega)
        omega

theorem recommend_schemes_ne_nil (m : SchemeMetrics) (n : ℕ) :
    recommend_schemes m n ≠ [] := by
  have hget : (schemeScores m).get? 19 = some ("Skill India", skillIndiaScore m) := rfl
  have hmem : ("Skill India", skillIndiaScore m) ∈ schemeScores m :=
    List.get?_mem hget
  have hpos : (0 : ℚ) < skillIndiaScore m := by
    unfold skillIndiaScore
    split_ifs <;> norm_num
  have hmemf : ("Skill India", skillIndiaScore m)
      ∈ (schemeScores m).filter (fun p : String × ℚ => decide (0 < p.2)) :=
    List.mem_filter.mpr ⟨hmem, by simpa using hpos⟩
  show (if ((schemeScores m).filter (fun p : String × ℚ => decide (0 < p.2))).isEmpty
      then [] else chooseTop n (scoredSorted m) [] 0) ≠ []
  split_ifs with h
  · exfalso
    rw [List.isEmpty_iff] at h
    rw [h] at hmemf
    simp at hmemf
  · have hlen : (scoredSorted m).length
        = ((schemeScores m).filter (fun p : String × ℚ => decide (0 < p.2))).length :=
      length_sortLt _ _
    cases hs : scoredSorted m with
    | nil =>
        exfalso
        rw [hs] at hlen
        have : ((schemeScores m).filter
            (fun p : String × ℚ => decide (0 < p.2))) = [] :=
          List.eq_nil_of_length_eq_zero hlen.symm
        rw [this] at hmemf
        simp at hmemf
    | cons q rest =>
        obtain ⟨name, s⟩ := q
        simp only [chooseTop]
        rw [if_neg (by simp)]
        split_ifs <;> simp

/-- C9: The scheme recommender is deterministic — equal metric rows give
equal ranked lists — and its output never exceeds the configured maximum
number of schemes (for any positive configured maximum). -/
theorem C9_deterministic_and_bounded :
    (∀ (m1 m2 : SchemeMetrics) (n : ℕ), m1 = m2 →
        recommend_schemes m1 n = recommend_schemes m2 n)
      ∧ (∀ (m : SchemeMetrics) (n : ℕ), 1 ≤ n →
          (recommend_schemes m n).length ≤ n) := by
  constructor
  · intro m1 m2 n h
    rw [h]
  · intro m n hn
    show (if ((schemeScores m).filter (fun p : String × ℚ => decide (0 < p.2))).isEmpty
        then [] else chooseTop n (scoredSorted m) [] 0).length ≤ n
    split_ifs with h
    · simp
    · have := chooseTop_length_le n (scoredSorted m) [] 0 (by omega)
      omega

theorem C9_deterministic_and_bounded_witness :
    recommend_schemes (SchemeMetrics.mk none none none none none) 4
        = recommend_schemes (SchemeMetrics.mk none none none none none) 4
      ∧ (recommend_schemes (SchemeMetrics.mk none none none none none) 4).length ≤ 4 :=
  ⟨C9_deterministic_and_bounded.1 _ _ 4 rfl,
   C9_deterministic_and_bounded.2 (SchemeMetrics.mk none none none none none) 4
     (by norm_num)⟩

/-- C10: For every metrics row and `max_schemes ≥ 1`, `recommend_schemes`
returns a non-empty list: `Skill India` always scores at least 0.4, so the
scored list is never empty; consequently, a valid-coordinates result row
always has a non-empty recommended-scheme list, and an empty list can only
come from the invalid-coordinates path. -/
theorem C10_recommender_never_empty (m : SchemeMetrics) (n : ℕ) (hn : 1 ≤ n) :
    (("Skill India", skillIndiaScore m) ∈ schemeScores m
        ∧ 2/5 ≤ skillIndiaScore m)
      ∧ recommend_schemes m n ≠ []
      ∧ (∀ (cfg : EvalConfig) (claim : ClaimRow) (detected : List Asset)
          (wells : List Well) (d : ℚ → ℚ → ℚ → ℚ → ℚ) (lat lon : ℚ),
          (evaluateValid cfg claim detected wells d lat lon).recommended_schemes
            ≠ []) := by
  refine ⟨⟨List.get?_mem (rfl :
      (schemeScores m).get? 19 = some ("Skill India", skillIndiaScore m)), ?_⟩,
    recommend_schemes_ne_nil m n, ?_⟩
  · unfold skillIndiaScore
    split_ifs <;> norm_num
  · intro cfg claim detected wells d lat lon
    exact recommend_schemes_ne_nil _ 4

theorem C10_recommender_never_empty_witness :
    recommend_schemes (SchemeMetrics.mk none none none none none) 4 ≠ [] :=
  (C10_recommender_never_empty (SchemeMetrics.mk none none none none none) 4
    (by norm_num)).2.1
